import Mathlib

/-!
# MAAUpdater: a shallow embedding of `maaupdater_mini.c`

The program is a linear pipeline: load the configuration, ask for the
installation directory when none is configured, download the resource archive,
open and extract it, copy the managed subfolders with `xcopy`, report.

* C strings are modelled by their contents, the characters before the
  terminating NUL, as `List Char` (one `Char` per C `char`).
* The outside world is split in two: `Env` holds what the external
  collaborators answer during one run (folder picker, `fopen` for writing,
  `GetTempPath`, `URLDownloadToFile`, `zip_open`, `zip_extract`, `system`), and
  `World` holds the state the program reads and writes (the global
  `maa_directory`, the configuration file, the trace of external calls).
* The configuration file is the character sequence the C text stream
  delivers and accepts; the translation a text stream may apply to line ends
  is not modelled.
* `strcat`/`strcpy` into the `MAX_PATH` buffers `temp_dir` and `zip_path` of
  `update` are list append, which is what they do as long as the result fits.
  A run whose temporary path does not leave room for `maa_update`, the
  separator, `download.zip` and the terminator overflows these buffers and has
  no defined behaviour; `Env` excludes such runs by its field `temp_path_fits`.
-/

namespace MAAUpdater

/-! ## Constants -/

/-- The Windows constant `MAX_PATH` (`minwindef.h`). -/
def MAX_PATH : Nat := 260

/-- The terminator of C strings. -/
def NUL : Char := Char.ofNat 0

/-- The newline character. -/
def NL : Char := Char.ofNat 10

/-- The double quote character. -/
def QUOTE : Char := Char.ofNat 34

/-- The path separator of Windows, a backslash. -/
def BACKSLASH : Char := Char.ofNat 92

def CONFIG_FILE : String := "update_config.ini"

def DOWNLOAD_URL : String :=
  "https://github.com/MaaAssistantArknights/MaaResource/archive/refs/heads/main.zip"

def TEMP_ZIP_FILE : List Char := "download.zip".toList

/-- The two icons the program passes to `MessageBox` (always with `MB_OK`). -/
inductive Icon where
  | MB_ICONINFORMATION
  | MB_ICONERROR
  deriving DecidableEq

/-! ## Observable events and program state -/

/-- One call of the program into the outside world, with the answer it got. -/
inductive Event where
  | MessageBox (text caption : String) (icon : Icon)
  | printf (text : String)
  | SHBrowseForFolder (title : String)
  | fprintf (file : String) (text : List Char)
  | mkdir (dir : List Char)
  | URLDownloadToFile (url : String) (file : List Char) (ok : Bool)
  | zip_open (path : List Char) (ok : Bool)
  | zip_extract (dir : List Char) (ok : Bool)
  | zip_close
  | system (cmd : List Char) (status : Int)
  deriving DecidableEq

/-- Answers of the external collaborators during one run. -/
structure Env where
  /-- Whether `fopen(CONFIG_FILE, "w")` returns a stream. -/
  config_writable : Bool
  /-- The folder dialog: `none` when `SHBrowseForFolder` returns a null item
  (the user cancelled), `some p` when an item is returned and
  `SHGetPathFromIDList` stores the path `p`. -/
  picker : Option (List Char)
  /-- The string `GetTempPath` stores. -/
  temp_path : List Char
  /-- Whether `URLDownloadToFile` returns `S_OK`. -/
  download_ok : Bool
  /-- Whether `zip_open` returns a non-null handle. -/
  zip_open_ok : Bool
  /-- Whether `zip_extract` wrote every entry. -/
  zip_extract_ok : Bool
  /-- Exit status of `system` for a command line, `0` for success. -/
  system_status : List Char → Int
  /-- The temporary path followed by `maa_update`, a separator and
  `download.zip` fits, with its terminator, the `MAX_PATH` buffers `temp_dir`
  and `zip_path` of `update`: the temporary path has at most 236 characters. -/
  temp_path_fits :
    (temp_path ++ ("maa_update".toList ++ [BACKSLASH]) ++ TEMP_ZIP_FILE).length < MAX_PATH

/-- The state the program reads and writes. -/
structure World where
  /-- Contents of the global buffer `maa_directory`. -/
  maa_directory : List Char
  /-- Contents of the configuration file, `none` when `fopen(CONFIG_FILE, "r")`
  fails (the file does not exist). -/
  config_file : Option (List Char)
  /-- External calls made so far, oldest first. -/
  trace : List Event

/-- The state at program start: `maa_directory` is zero-initialised. -/
def init (config_file : Option (List Char)) : World :=
  { maa_directory := [], config_file := config_file, trace := [] }

/-- Record an external call. -/
def emit (w : World) (e : Event) : World :=
  { w with trace := w.trace ++ [e] }

/-! ## The C library functions the program uses -/

/-- The C string held by a buffer: the characters before the first NUL. -/
def cstr (buf : List Char) : List Char :=
  buf.takeWhile (fun c => c != NUL)

/-- Characters `fgets` stores when it may store at most `k` of them: it stops
after a newline (which it keeps), at end of file, or when `k` are stored. -/
def fgetsChars : Nat → List Char → List Char
  | 0, _ => []
  | _, [] => []
  | k + 1, c :: cs => if c = NL then [c] else c :: fgetsChars k cs

/-- The call `fgets(buf, n, file)` on a freshly opened file: `none` is the NULL
result at end of file, which leaves the buffer as it was. -/
def fgets (n : Nat) (content : List Char) : Option (List Char) :=
  match fgetsChars (n - 1) content with
  | [] => none
  | line => some line

/-- The call `strcspn(s, reject)`: the length of the longest initial segment of
`s` without a character of `reject`. -/
def strcspn (s reject : List Char) : Nat :=
  (s.takeWhile (fun c => !reject.contains c)).length

/-- The call `snprintf(buf, size, ...)` given the fully formatted text: at most
`size - 1` characters are stored. -/
def snprintf (size : Nat) (formatted : List Char) : List Char :=
  formatted.take (size - 1)

/-! ## The program -/

/-- Embedding of `load_config`. -/
def load_config (w : World) : World :=
  match w.config_file with
  | none => w
  | some content =>
    let buf := match fgets MAX_PATH content with
      | some line => cstr line
      | none => w.maa_directory
    { w with maa_directory := buf.take (strcspn buf [NL]) }

/-- Embedding of `save_config`. -/
def save_config (env : Env) (w : World) : World :=
  if env.config_writable then
    emit { w with config_file := some w.maa_directory }
      (Event.fprintf CONFIG_FILE w.maa_directory)
  else w

/-- Embedding of `select_directory` (the release of the item list is memory
management only). -/
def select_directory (env : Env) (w : World) : Nat × World :=
  let w1 := emit w (Event.SHBrowseForFolder "选择MAA安装路径")
  match env.picker with
  | some path => (1, { w1 with maa_directory := path })
  | none => (0, w1)

/-- The text `copy_folder` formats, before it is cut to the buffer. -/
def copy_folder_format (src dst : List Char) : List Char :=
  "xcopy /E /I /Y ".toList ++ [QUOTE] ++ src ++ [QUOTE] ++ " ".toList ++ [QUOTE] ++ dst ++ [QUOTE]

/-- The command line `copy_folder` passes to `system`. -/
def copy_folder_cmd (src dst : List Char) : List Char :=
  snprintf (MAX_PATH * 2) (copy_folder_format src dst)

/-- Embedding of `copy_folder`: the status of `system` is not looked at. -/
def copy_folder (env : Env) (src dst : List Char) (w : World) : World :=
  let cmd := copy_folder_cmd src dst
  emit w (Event.system cmd (env.system_status cmd))

/-- The array `folders` of `update`. -/
def folders : List (List Char) := ["resource".toList, "cache".toList]

/-- The staging directory `temp_dir` of `update`. -/
def temp_dir (env : Env) : List Char :=
  env.temp_path ++ ("maa_update".toList ++ [BACKSLASH])

/-- The buffer `zip_path` of `update`. -/
def zip_path (env : Env) : List Char :=
  temp_dir env ++ TEMP_ZIP_FILE

/-- The buffer `src_path` of `update` for one folder. -/
def src_path (env : Env) (folder : List Char) : List Char :=
  snprintf MAX_PATH (temp_dir env ++ ("MaaResource-main".toList ++ [BACKSLASH]) ++ folder)

/-- The buffer `dst_path` of `update` for one folder. -/
def dst_path (w : World) (folder : List Char) : List Char :=
  snprintf MAX_PATH (w.maa_directory ++ [BACKSLASH] ++ folder)

/-- The body of the loop of `update` for one folder. -/
def update_folder (env : Env) (w : World) (folder : List Char) : World :=
  copy_folder env (src_path env folder) (dst_path w folder) w

/-- Embedding of `update`: `1` for success, `0` for failure. -/
def update (env : Env) (w : World) : Nat × World :=
  let w := emit w (Event.mkdir (temp_dir env))
  let w := emit w (Event.URLDownloadToFile DOWNLOAD_URL (zip_path env) env.download_ok)
  if !env.download_ok then
    (0, emit w (Event.printf "下载失败\n"))
  else
    let w := emit w (Event.zip_open (zip_path env) env.zip_open_ok)
    if !env.zip_open_ok then
      (0, emit w (Event.printf "解压失败\n"))
    else
      let w := emit w (Event.zip_extract (temp_dir env) env.zip_extract_ok)
      let w := emit w Event.zip_close
      (1, folders.foldl (update_folder env) w)

def MSG_WELCOME : Event :=
  Event.MessageBox "欢迎使用MAA资源更新器！请选择MAA的安装路径。" "首次启动" Icon.MB_ICONINFORMATION

def MSG_CANCELLED : Event :=
  Event.MessageBox "未选择MAA安装路径，程序将退出。" "错误" Icon.MB_ICONERROR

def MSG_SUCCESS : Event :=
  Event.MessageBox "更新完成！" "更新完成" Icon.MB_ICONINFORMATION

def MSG_FAILURE : Event :=
  Event.MessageBox "更新失败" "更新失败" Icon.MB_ICONERROR

/-- The end of `main`: run `update`, show the outcome, return `0`. -/
def main_update (env : Env) (w : World) : Int × World :=
  match update env w with
  | (0, w) => (0, emit w MSG_FAILURE)
  | (_, w) => (0, emit w MSG_SUCCESS)

/-- Embedding of `main`: the exit status and the final state. -/
def main (env : Env) (w : World) : Int × World :=
  let w := load_config w
  if w.maa_directory.length = 0 then
    let w := emit w MSG_WELCOME
    match select_directory env w with
    | (0, w) => (1, emit w MSG_CANCELLED)
    | (_, w) => main_update env (save_config env w)
  else
    main_update env w

/-- The event is a call of the Archive Fetcher. -/
def Event.isFetch : Event → Bool
  | Event.URLDownloadToFile _ _ _ => true
  | _ => false

/-- The event is a call of the Archive Extractor (open or extract). -/
def Event.isExtract : Event → Bool
  | Event.zip_open _ _ => true
  | Event.zip_extract _ _ => true
  | _ => false

/-- The event is a call of the Directory Synchronizer (one shell command). -/
def Event.isCopy : Event → Bool
  | Event.system _ _ => true
  | _ => false

/-- The event is a write to the configuration file. -/
def Event.isConfigWrite : Event → Bool
  | Event.fprintf _ _ => true
  | _ => false

/-! ## The specification side -/

/-- The first line of a file in the words of the specification: the characters
before the first newline, or the whole content when there is none. -/
def firstLine (content : List Char) : List Char :=
  content.takeWhile (fun c => c != NL)

set_option maxRecDepth 100000

/-! ## Concrete runs -/

/-- An installation path used in the examples, `MAA` at the root of drive C. -/
def pathMAA : List Char := "C:".toList ++ [BACKSLASH] ++ "MAA".toList

/-- A temporary path as `GetTempPath` stores it, with its final separator. -/
def tempPath : List Char := "C:".toList ++ [BACKSLASH] ++ "Temp".toList ++ [BACKSLASH]

/-- A run in which the configuration file can be written and nothing else
succeeds. -/
def envWritable : Env := Env.mk true none [] false false false (fun _ => 0) (by decide)

/-- A first run in which the user cancels the folder dialog. -/
def envCancel : Env := Env.mk true none tempPath true true true (fun _ => 0) (by decide)

/-- A run in which every stage succeeds. -/
def envOk : Env := Env.mk true (some pathMAA) tempPath true true true (fun _ => 0) (by decide)

/-- A run in which the download fails. -/
def envDownloadFails : Env :=
  Env.mk true (some pathMAA) tempPath false true true (fun _ => 0) (by decide)

/-- A run in which the archive opens, `zip_extract` fails, and `xcopy` succeeds. -/
def envExtractFails : Env :=
  Env.mk true (some pathMAA) tempPath true true false (fun _ => 0) (by decide)

/-- A run in which download and extraction succeed and every `xcopy` exits
with the error status `4`. -/
def envCopyFails : Env :=
  Env.mk true (some pathMAA) tempPath true true true (fun _ => 4) (by decide)

/-- A first run in a working directory where the configuration file cannot be
opened for writing; the user picks `pathMAA`. -/
def envNotWritable : Env :=
  Env.mk false (some pathMAA) tempPath true true true (fun _ => 0) (by decide)

/-- A run in which every stage succeeds and the temporary path has 231
characters, a separator at the end. -/
def envLongTemp : Env :=
  Env.mk true (some pathMAA) (List.replicate 230 (Char.ofNat 97) ++ [BACKSLASH]) true true true
    (fun _ => 0) (by decide)

/-- An installation path of 251 characters. -/
def pathLong : List Char := List.replicate 251 (Char.ofNat 97)

/-! ## Facts about the C library model -/

theorem NL_ne_NUL : NL ≠ NUL := by decide

theorem take_strcspn_NL (s : List Char) :
    s.take (strcspn s [NL]) = s.takeWhile (fun c => c != NL) := by
  unfold strcspn
  induction s with
  | nil => rfl
  | cons c cs ih =>
    by_cases h : c = NL
    · simp [h]
    · simp [h]
      simpa using ih

theorem firstLine_of_not_mem (P : List Char) (h : NL ∉ P) : firstLine P = P := by
  unfold firstLine
  rw [List.takeWhile_eq_self_iff]
  intro x hx
  have : x ≠ NL := fun e => h (e ▸ hx)
  simpa using this

theorem fgetsChars_ne_nil (k : Nat) (content : List Char) (hc : content ≠ []) :
    fgetsChars (k + 1) content ≠ [] := by
  cases content with
  | nil => exact absurd rfl hc
  | cons c cs =>
    unfold fgetsChars
    split <;> simp

/-- What `load_config` leaves in the buffer after a successful `fgets`. -/
theorem load_line (k : Nat) (content : List Char)
    (hlen : (firstLine content).length ≤ k) (hnul : NUL ∉ firstLine content) :
    (cstr (fgetsChars k content)).takeWhile (fun c => c != NL) = firstLine content := by
  induction content generalizing k with
  | nil => cases k <;> rfl
  | cons c cs ih =>
    by_cases h : c = NL
    · subst h
      cases k with
      | zero => simp [fgetsChars, cstr, firstLine]
      | succ k => simp [fgetsChars, cstr, firstLine, NL_ne_NUL]
    · have hfl : firstLine (c :: cs) = c :: firstLine cs := by simp [firstLine, h]
      rw [hfl] at hlen hnul
      simp only [List.mem_cons, not_or] at hnul
      have hc0 : c ≠ NUL := fun e => hnul.1 e.symm
      cases k with
      | zero => simp at hlen
      | succ k =>
        have hlen2 : (firstLine cs).length ≤ k := by simpa using hlen
        have := ih k hlen2 hnul.2
        rw [hfl]
        simp [fgetsChars, h, cstr, hc0]
        simpa [cstr] using this

theorem load_config_some (w : World) (content : List Char)
    (hfile : w.config_file = some content) (hc : content ≠ []) :
    (load_config w).maa_directory =
      (cstr (fgetsChars (MAX_PATH - 1) content)).takeWhile (fun c => c != NL) := by
  unfold load_config
  rw [hfile]
  have hne := fgetsChars_ne_nil 258 content hc
  simp only [fgets, MAX_PATH] at *
  rw [take_strcspn_NL]

theorem load_config_none (w : World) (hfile : w.config_file = none) : load_config w = w := by
  unfold load_config
  rw [hfile]

theorem load_config_empty (w : World) (hfile : w.config_file = some [])
    (h0 : w.maa_directory = []) : (load_config w).maa_directory = [] := by
  unfold load_config
  rw [hfile]
  simp [fgets, fgetsChars, MAX_PATH, h0]

theorem copy_folder_format_length (src dst : List Char) :
    (copy_folder_format src dst).length = src.length + dst.length + 20 := by
  have h : "xcopy /E /I /Y ".toList.length = 15 := by decide
  have h2 : " ".toList.length = 1 := by decide
  simp only [copy_folder_format, List.length_append, List.length_cons, List.length_nil, h, h2]
  omega

theorem copy_folder_format_eq (src dst : List Char) :
    copy_folder_format src dst =
      ("xcopy /E /I /Y ".toList ++ [QUOTE] ++ src ++ [QUOTE] ++ [Char.ofNat 32] ++ [QUOTE] ++ dst)
        ++ [QUOTE] := rfl

theorem load_config_trace (w : World) : (load_config w).trace = w.trace := by
  unfold load_config
  split <;> rfl

theorem load_config_config_file (w : World) : (load_config w).config_file = w.config_file := by
  unfold load_config
  split
  · rfl
  · rename_i h; simp [h]

/-! ## Facts about `update` -/

/-- The buffer `zip_path` holds its contents and the terminator. -/
theorem zip_path_fits (env : Env) : (zip_path env).length < MAX_PATH :=
  env.temp_path_fits

/-- The buffer `temp_dir` holds its contents and the terminator, with room for
`download.zip` to spare. -/
theorem temp_dir_fits (env : Env) : (temp_dir env).length + 12 < MAX_PATH := by
  have h := env.temp_path_fits
  have hz : TEMP_ZIP_FILE.length = 12 := by decide
  rw [List.length_append, hz] at h
  exact h

/-- The state of `update` when the loop over `folders` starts. -/
theorem update_ok (env : Env) (w : World) (hd : env.download_ok = true)
    (hz : env.zip_open_ok = true) :
    update env w =
      (1, update_folder env (update_folder env
        { w with trace := w.trace ++
            [Event.mkdir (temp_dir env),
             Event.URLDownloadToFile DOWNLOAD_URL (zip_path env) true,
             Event.zip_open (zip_path env) true,
             Event.zip_extract (temp_dir env) env.zip_extract_ok,
             Event.zip_close] } "resource".toList) "cache".toList) := by
  simp [update, hd, hz, folders, emit]

theorem update_folder_trace (env : Env) (w : World) (folder : List Char) :
    (update_folder env w folder).trace = w.trace ++
      [Event.system (copy_folder_cmd (src_path env folder) (dst_path w folder))
        (env.system_status (copy_folder_cmd (src_path env folder) (dst_path w folder)))] := rfl

theorem update_ok_trace (env : Env) (w : World) (hd : env.download_ok = true)
    (hz : env.zip_open_ok = true) :
    (update env w).2.trace = w.trace ++
      [Event.mkdir (temp_dir env),
       Event.URLDownloadToFile DOWNLOAD_URL (zip_path env) true,
       Event.zip_open (zip_path env) true,
       Event.zip_extract (temp_dir env) env.zip_extract_ok,
       Event.zip_close,
       Event.system (copy_folder_cmd (src_path env "resource".toList) (dst_path w "resource".toList))
         (env.system_status
           (copy_folder_cmd (src_path env "resource".toList) (dst_path w "resource".toList))),
       Event.system (copy_folder_cmd (src_path env "cache".toList) (dst_path w "cache".toList))
         (env.system_status
           (copy_folder_cmd (src_path env "cache".toList) (dst_path w "cache".toList)))] := by
  rw [update_ok env w hd hz]
  simp only [update_folder_trace, List.append_assoc, List.cons_append, List.nil_append]
  rfl

theorem update_maa_directory (env : Env) (w : World) :
    (update env w).2.maa_directory = w.maa_directory := by
  unfold update
  split
  · rfl
  · split
    · rfl
    · rfl

theorem update_config_file (env : Env) (w : World) :
    (update env w).2.config_file = w.config_file := by
  unfold update
  split
  · rfl
  · split
    · rfl
    · rfl

theorem update_trace_start (env : Env) (w : World) :
    ∃ rest, (update env w).2.trace = w.trace ++
      (Event.mkdir (temp_dir env) ::
        Event.URLDownloadToFile DOWNLOAD_URL (zip_path env) env.download_ok :: rest) := by
  cases hd : env.download_ok
  · exact ⟨_, by simp [update, hd, emit]; rfl⟩
  · cases hz : env.zip_open_ok
    · exact ⟨_, by simp [update, hd, hz, emit]; rfl⟩
    · exact ⟨_, by rw [update_ok_trace env w hd hz]⟩

theorem main_update_trace (env : Env) (w : World) :
    (main_update env w).2.trace =
      (update env w).2.trace ++ [if (update env w).1 = 0 then MSG_FAILURE else MSG_SUCCESS] := by
  unfold main_update
  rcases update env w with ⟨r, w2⟩
  cases r <;> simp [emit]

theorem main_update_exit (env : Env) (w : World) : (main_update env w).1 = 0 := by
  unfold main_update
  split <;> rfl

theorem main_update_config_file (env : Env) (w : World) :
    (main_update env w).2.config_file = w.config_file := by
  have h := update_config_file env w
  unfold main_update
  generalize update env w = p at h ⊢
  rcases p with ⟨r, w2⟩
  cases r <;> simpa [emit] using h

/-- When the archive cannot be opened, `update` returns failure after the
console message, without extracting and without copying. -/
theorem update_open_failure (env : Env) (w : World) (hd : env.download_ok = true)
    (hz : env.zip_open_ok = false) :
    (update env w).1 = 0 ∧
    (update env w).2.trace = w.trace ++
      [Event.mkdir (temp_dir env),
       Event.URLDownloadToFile DOWNLOAD_URL (zip_path env) true,
       Event.zip_open (zip_path env) false,
       Event.printf "解压失败\n"] := by
  simp [update, hd, hz, emit]

/-- The state of a first run after the user picked a directory, before
`save_config`. -/
theorem main_first_run (env : Env) (cfg : Option (List Char)) (P : List Char)
    (hempty : (load_config (init cfg)).maa_directory = []) (hpick : env.picker = some P) :
    main env (init cfg) = main_update env (save_config env
      { maa_directory := P, config_file := cfg,
        trace := [MSG_WELCOME, Event.SHBrowseForFolder "选择MAA安装路径"] }) := by
  have ht := load_config_trace (init cfg)
  have hf := load_config_config_file (init cfg)
  simp only [init] at ht hf hempty
  simp [main, init, hempty, select_directory, hpick, emit, ht, hf]

theorem main_update_trace_start (env : Env) (w : World) :
    ∃ rest, (main_update env w).2.trace = w.trace ++
      (Event.mkdir (temp_dir env) ::
        Event.URLDownloadToFile DOWNLOAD_URL (zip_path env) env.download_ok :: rest) := by
  obtain ⟨rest, hrest⟩ := update_trace_start env w
  rw [main_update_trace, hrest]
  generalize (if (update env w).1 = 0 then MSG_FAILURE else MSG_SUCCESS) = m
  exact ⟨rest ++ [m], by simp⟩

/-! ## Configuration store -/

/-- C1. Config round-trip: for a non-empty path `P` without newline (and, as a
C string, without NUL) that fits the `MAX_PATH` buffer, `save_config` run with
`maa_directory = P` writes a file holding exactly `P`, and `load_config` run on
that file, from any state, leaves `maa_directory = P`. -/
theorem config_round_trip (env : Env) (w : World) (P : List Char)
    (hP : P ≠ []) (hnl : NL ∉ P) (hnul : NUL ∉ P) (hlen : P.length < MAX_PATH)
    (hw : w.maa_directory = P) (hwr : env.config_writable = true) :
    (save_config env w).config_file = some P ∧
    ∀ w2 : World, w2.config_file = (save_config env w).config_file →
      (load_config w2).maa_directory = P := by
  have hsave : (save_config env w).config_file = some P := by
    simp [save_config, hwr, emit, hw]
  refine ⟨hsave, ?_⟩
  intro w2 h2
  rw [hsave] at h2
  rw [load_config_some w2 P h2 hP]
  have hfl := firstLine_of_not_mem P hnl
  have := load_line (MAX_PATH - 1) P (by rw [hfl]; unfold MAX_PATH at *; omega) (by rw [hfl]; exact hnul)
  rw [this, hfl]

theorem config_round_trip_witness :
    (pathMAA ≠ [] ∧ NL ∉ pathMAA ∧ NUL ∉ pathMAA ∧ pathMAA.length < MAX_PATH) ∧
    (save_config envWritable (World.mk pathMAA none [])).config_file = some pathMAA ∧
    (load_config (init (save_config envWritable (World.mk pathMAA none [])).config_file)).maa_directory
      = pathMAA :=
  ⟨by decide,
   (config_round_trip envWritable (World.mk pathMAA none []) pathMAA
      (by decide) (by decide) (by decide) (by decide) rfl rfl).1,
   (config_round_trip envWritable (World.mk pathMAA none []) pathMAA
      (by decide) (by decide) (by decide) (by decide) rfl rfl).2
      (init (save_config envWritable (World.mk pathMAA none [])).config_file) rfl⟩

/-! ## Update orchestrator -/

/-- C2 (as the code has it). Process exit status: a run in which the loaded
configuration is empty and the folder dialog is cancelled exits with status
`1`; every other run whose download, archive open and extraction succeed shows
the success notification and exits with status `0`, whatever status the copy
commands returned. -/
theorem exit_status (env : Env) (cfg : Option (List Char)) :
    (((load_config (init cfg)).maa_directory = [] ∧ env.picker = none) →
      (main env (init cfg)).1 = 1) ∧
    (¬ ((load_config (init cfg)).maa_directory = [] ∧ env.picker = none) →
      env.download_ok = true → env.zip_open_ok = true → env.zip_extract_ok = true →
      (main env (init cfg)).1 = 0 ∧ MSG_SUCCESS ∈ (main env (init cfg)).2.trace) := by
  simp only [main]
  generalize load_config (init cfg) = w1
  obtain ⟨dir, file1, tr⟩ := w1
  obtain ⟨cw, picker, tp, dl, zo, ze, ss, hfit⟩ := env
  constructor
  · rintro ⟨h1, h2⟩
    simp only at h1 h2
    subst h1 h2
    simp [select_directory, emit]
  · intro hrun h1 h2 h3
    simp only at h1 h2 h3 hrun
    subst h1 h2 h3
    cases picker <;> cases cw <;> by_cases hd : dir = [] <;>
      simp [hd, select_directory, save_config, main_update, update, emit, folders,
        update_folder, copy_folder, MSG_SUCCESS] at hrun ⊢

theorem exit_status_witness :
    (main envCancel (init none)).1 = 1 ∧
    ((main envCopyFails (init (some pathMAA))).1 = 0 ∧
      MSG_SUCCESS ∈ (main envCopyFails (init (some pathMAA))).2.trace) :=
  ⟨(exit_status envCancel none).1 (by decide),
   (exit_status envCopyFails (some pathMAA)).2 (by decide) rfl rfl rfl⟩

/-- C2 fails as stated: in a run where every copy command fails with status `4`
the exit status is `0`. -/
theorem exit_status_zero_on_sync_failure :
    envCopyFails.system_status
        (copy_folder_cmd (src_path envCopyFails "resource".toList)
          (pathMAA ++ [BACKSLASH] ++ "resource".toList)) ≠ 0 ∧
    Event.system
        (copy_folder_cmd (src_path envCopyFails "resource".toList)
          (pathMAA ++ [BACKSLASH] ++ "resource".toList)) 4
      ∈ (main envCopyFails (init (some pathMAA))).2.trace ∧
    (main envCopyFails (init (some pathMAA))).1 = 0 := by
  decide

/-- C3. Cancellation path: when the loaded configuration is empty or absent
and the folder dialog is cancelled, the run shows the welcome notice, the
dialog and the cancellation error notice and nothing else, exits with status
`1`, leaves the configuration file as it was, and performs no configuration
write, no download, no extraction and no copy. -/
theorem cancellation_path (env : Env) (cfg : Option (List Char))
    (hempty : (load_config (init cfg)).maa_directory = []) (hcancel : env.picker = none) :
    (main env (init cfg)).1 = 1 ∧
    (main env (init cfg)).2.trace =
      [MSG_WELCOME, Event.SHBrowseForFolder "选择MAA安装路径", MSG_CANCELLED] ∧
    (main env (init cfg)).2.config_file = cfg ∧
    ∀ e ∈ (main env (init cfg)).2.trace,
      e.isConfigWrite = false ∧ e.isFetch = false ∧ e.isExtract = false ∧ e.isCopy = false := by
  have ht := load_config_trace (init cfg)
  have hf := load_config_config_file (init cfg)
  simp only [init] at ht hf hempty
  simp only [main, init, hempty, select_directory, hcancel, emit, ht, hf]
  simp [MSG_WELCOME, MSG_CANCELLED, Event.isConfigWrite, Event.isFetch, Event.isExtract,
    Event.isCopy]

theorem cancellation_path_witness :
    ((load_config (init none)).maa_directory = [] ∧ envCancel.picker = none) ∧
    (main envCancel (init none)).1 = 1 ∧
    (main envCancel (init none)).2.trace =
      [MSG_WELCOME, Event.SHBrowseForFolder "选择MAA安装路径", MSG_CANCELLED] ∧
    (main envCancel (init none)).2.config_file = none :=
  ⟨⟨rfl, rfl⟩, (cancellation_path envCancel none rfl rfl).1,
   (cancellation_path envCancel none rfl rfl).2.1,
   (cancellation_path envCancel none rfl rfl).2.2.1⟩

/-- C5 at the failing input: the archive opens but `zip_extract` fails; `update`
still returns success, both managed subfolders are copied after the failed
extraction, and the run shows the success notification. -/
theorem extract_failure_not_fatal :
    envExtractFails.zip_extract_ok = false ∧
    (update envExtractFails (World.mk pathMAA (some pathMAA) [])).1 = 1 ∧
    (update envExtractFails (World.mk pathMAA (some pathMAA) [])).2.trace =
      [Event.mkdir (temp_dir envExtractFails),
       Event.URLDownloadToFile DOWNLOAD_URL (zip_path envExtractFails) true,
       Event.zip_open (zip_path envExtractFails) true,
       Event.zip_extract (temp_dir envExtractFails) false,
       Event.zip_close,
       Event.system
        (copy_folder_cmd (src_path envExtractFails "resource".toList)
          (pathMAA ++ [BACKSLASH] ++ "resource".toList)) 0,
       Event.system
        (copy_folder_cmd (src_path envExtractFails "cache".toList)
          (pathMAA ++ [BACKSLASH] ++ "cache".toList)) 0] ∧
    MSG_SUCCESS ∈ (main envExtractFails (init (some pathMAA))).2.trace ∧
    MSG_FAILURE ∉ (main envExtractFails (init (some pathMAA))).2.trace := by
  decide

/-- C6. Fetch failure is fatal and halts immediately: when the download does
not succeed, `update` returns failure after the directory creation, the
download and the console message only; a run whose download failed shows the
failure notification, not the success one, and has no extraction and no copy;
and a run attempts extraction exactly when its download succeeded. -/
theorem fetch_failure_fatal (env : Env) (cfg : Option (List Char)) :
    (∀ w : World, env.download_ok = false →
      (update env w).1 = 0 ∧
      (update env w).2.trace = w.trace ++
        [Event.mkdir (temp_dir env), Event.URLDownloadToFile DOWNLOAD_URL (zip_path env) false,
         Event.printf "下载失败\n"]) ∧
    (∀ file, Event.URLDownloadToFile DOWNLOAD_URL file false ∈ (main env (init cfg)).2.trace →
      MSG_FAILURE ∈ (main env (init cfg)).2.trace ∧
      MSG_SUCCESS ∉ (main env (init cfg)).2.trace ∧
      ∀ e ∈ (main env (init cfg)).2.trace, e.isExtract = false ∧ e.isCopy = false) ∧
    ((∃ e ∈ (main env (init cfg)).2.trace, e.isExtract = true) ↔
      ∃ file, Event.URLDownloadToFile DOWNLOAD_URL file true ∈ (main env (init cfg)).2.trace) := by
  have ht := load_config_trace (init cfg)
  have hf := load_config_config_file (init cfg)
  simp only [main]
  generalize load_config (init cfg) = w1 at ht hf
  obtain ⟨dir, file1, tr⟩ := w1
  simp only [init] at ht hf
  subst ht hf
  refine ⟨?_, ?_, ?_⟩
  · intro w h
    simp [update, emit, h]
  · intro file
    cases hdl : env.download_ok <;> cases hzo : env.zip_open_ok <;> cases hp : env.picker <;>
      cases hcw : env.config_writable <;> by_cases hd : dir.length = 0 <;>
      simp [hd, hdl, hzo, hp, hcw, select_directory, save_config, main_update, update, emit,
        folders, update_folder, copy_folder, MSG_WELCOME, MSG_CANCELLED, MSG_FAILURE,
        MSG_SUCCESS, Event.isExtract, Event.isCopy]
  · cases hdl : env.download_ok <;> cases hzo : env.zip_open_ok <;> cases hp : env.picker <;>
      cases hcw : env.config_writable <;> by_cases hd : dir.length = 0 <;>
      simp [hd, hdl, hzo, hp, hcw, select_directory, save_config, main_update, update, emit,
        folders, update_folder, copy_folder, MSG_WELCOME, MSG_CANCELLED, MSG_FAILURE,
        MSG_SUCCESS, Event.isExtract, Event.isCopy]

theorem fetch_failure_fatal_witness :
    envDownloadFails.download_ok = false ∧
    (update envDownloadFails (init (some pathMAA))).1 = 0 ∧
    (update envDownloadFails (init (some pathMAA))).2.trace = [] ++
      [Event.mkdir (temp_dir envDownloadFails),
       Event.URLDownloadToFile DOWNLOAD_URL (zip_path envDownloadFails) false,
       Event.printf "下载失败\n"] ∧
    MSG_FAILURE ∈ (main envDownloadFails (init (some pathMAA))).2.trace ∧
    MSG_SUCCESS ∉ (main envDownloadFails (init (some pathMAA))).2.trace :=
  ⟨rfl, ((fetch_failure_fatal envDownloadFails (some pathMAA)).1 (init (some pathMAA)) rfl).1,
   ((fetch_failure_fatal envDownloadFails (some pathMAA)).1 (init (some pathMAA)) rfl).2,
   ((fetch_failure_fatal envDownloadFails (some pathMAA)).2.1 (zip_path envDownloadFails)
      (by decide)).1,
   ((fetch_failure_fatal envDownloadFails (some pathMAA)).2.1 (zip_path envDownloadFails)
      (by decide)).2.1⟩

/-- C7 (as the code has it). Config load, started with an empty `maa_directory`
as at program start: when the first line of the file (the characters before
the first newline, or the whole content if there is none) has at most
`MAX_PATH - 1` characters and no NUL, `load_config` yields exactly that first
line; when the file does not exist or is empty it yields the empty path. -/
theorem load_config_first_line (w : World) (h0 : w.maa_directory = [])
    (hfit : ∀ content, w.config_file = some content →
      (firstLine content).length < MAX_PATH ∧ NUL ∉ firstLine content) :
    (load_config w).maa_directory =
      (match w.config_file with
       | none => []
       | some content => firstLine content) := by
  cases hc : w.config_file with
  | none => simp [load_config_none w hc, h0]
  | some content =>
    simp only
    by_cases he : content = []
    · subst he
      rw [load_config_empty w hc h0]
      rfl
    · obtain ⟨h1, h2⟩ := hfit content hc
      rw [load_config_some w content hc he]
      exact load_line _ _ (by unfold MAX_PATH at *; omega) h2

theorem load_config_first_line_witness :
    (load_config (init (some [Char.ofNat 67, Char.ofNat 58, NL, Char.ofNat 68]))).maa_directory
      = firstLine [Char.ofNat 67, Char.ofNat 58, NL, Char.ofNat 68] ∧
    firstLine [Char.ofNat 67, Char.ofNat 58, NL, Char.ofNat 68] = [Char.ofNat 67, Char.ofNat 58] :=
  ⟨load_config_first_line (init (some [Char.ofNat 67, Char.ofNat 58, NL, Char.ofNat 68])) rfl
    (by intro content h; cases h; decide), by decide⟩

/-- C7 fails as stated: a file whose only line has `MAX_PATH` characters is
loaded as its first `MAX_PATH - 1` characters, not as the whole line; and a
line with a NUL character in it is loaded up to that character only. -/
theorem load_config_long_line_cut :
    ((load_config (init (some (List.replicate 260 (Char.ofNat 97))))).maa_directory
        = List.replicate 259 (Char.ofNat 97) ∧
      (load_config (init (some (List.replicate 260 (Char.ofNat 97))))).maa_directory
        ≠ firstLine (List.replicate 260 (Char.ofNat 97))) ∧
    ((load_config (init (some [Char.ofNat 97, NUL, Char.ofNat 98]))).maa_directory
        = [Char.ofNat 97] ∧
      (load_config (init (some [Char.ofNat 97, NUL, Char.ofNat 98]))).maa_directory
        ≠ firstLine [Char.ofNat 97, NUL, Char.ofNat 98]) := by
  decide

/-- C8 (as the code has it). Sync invocations: the staging directory and the
archive path fit their `MAX_PATH` buffers, and a run of `update` whose download
and archive open succeed invokes `copy_folder` exactly once per managed
subfolder after the extraction, for `resource` and then for `cache`, with the
buffers `src_path` and `dst_path`, which issues exactly two shell commands.
The source buffer holds the first `MAX_PATH - 1` characters of the staging
directory followed by `MaaResource-main`, a separator and the subfolder name;
the destination buffer holds the first `MAX_PATH - 1` characters of the
installation path followed by a separator and the subfolder name. When the
staging directory has at most 234 characters and the installation path at most
250, all four paths are complete. -/
theorem sync_invocations (env : Env) (w : World)
    (hd : env.download_ok = true) (hz : env.zip_open_ok = true) :
    ((temp_dir env).length < MAX_PATH ∧ (zip_path env).length < MAX_PATH) ∧
    update env w = (1,
      copy_folder env (src_path env "cache".toList) (dst_path w "cache".toList)
        (copy_folder env (src_path env "resource".toList) (dst_path w "resource".toList)
          { w with trace := w.trace ++
            [Event.mkdir (temp_dir env),
             Event.URLDownloadToFile DOWNLOAD_URL (zip_path env) true,
             Event.zip_open (zip_path env) true,
             Event.zip_extract (temp_dir env) env.zip_extract_ok,
             Event.zip_close] })) ∧
    (update env w).2.trace = w.trace ++
      [Event.mkdir (temp_dir env),
       Event.URLDownloadToFile DOWNLOAD_URL (zip_path env) true,
       Event.zip_open (zip_path env) true,
       Event.zip_extract (temp_dir env) env.zip_extract_ok,
       Event.zip_close,
       Event.system (copy_folder_cmd (src_path env "resource".toList) (dst_path w "resource".toList))
         (env.system_status
           (copy_folder_cmd (src_path env "resource".toList) (dst_path w "resource".toList))),
       Event.system (copy_folder_cmd (src_path env "cache".toList) (dst_path w "cache".toList))
         (env.system_status
           (copy_folder_cmd (src_path env "cache".toList) (dst_path w "cache".toList)))] ∧
    (src_path env "resource".toList =
        (temp_dir env ++ "MaaResource-main".toList ++ [BACKSLASH] ++ "resource".toList).take
          (MAX_PATH - 1) ∧
      dst_path w "resource".toList =
        (w.maa_directory ++ [BACKSLASH] ++ "resource".toList).take (MAX_PATH - 1) ∧
      src_path env "cache".toList =
        (temp_dir env ++ "MaaResource-main".toList ++ [BACKSLASH] ++ "cache".toList).take
          (MAX_PATH - 1) ∧
      dst_path w "cache".toList =
        (w.maa_directory ++ [BACKSLASH] ++ "cache".toList).take (MAX_PATH - 1)) ∧
    ((temp_dir env).length ≤ 234 → w.maa_directory.length ≤ 250 →
      src_path env "resource".toList =
        temp_dir env ++ "MaaResource-main".toList ++ [BACKSLASH] ++ "resource".toList ∧
      dst_path w "resource".toList = w.maa_directory ++ [BACKSLASH] ++ "resource".toList ∧
      src_path env "cache".toList =
        temp_dir env ++ "MaaResource-main".toList ++ [BACKSLASH] ++ "cache".toList ∧
      dst_path w "cache".toList = w.maa_directory ++ [BACKSLASH] ++ "cache".toList) := by
  have hs : ∀ folder, src_path env folder =
      (temp_dir env ++ "MaaResource-main".toList ++ [BACKSLASH] ++ folder).take (MAX_PATH - 1) := by
    intro folder
    simp [src_path, snprintf, List.append_assoc]
  have hdst : ∀ folder, dst_path w folder =
      (w.maa_directory ++ [BACKSLASH] ++ folder).take (MAX_PATH - 1) := by
    intro folder
    rfl
  refine ⟨⟨?_, zip_path_fits env⟩, ?_, update_ok_trace env w hd hz,
    ⟨hs _, hdst _, hs _, hdst _⟩, ?_⟩
  · have := temp_dir_fits env
    omega
  · rw [update_ok env w hd hz]
    rfl
  · intro hT hD
    have hr : "resource".toList.length = 8 := by decide
    have hc : "cache".toList.length = 5 := by decide
    have hm : "MaaResource-main".toList.length = 16 := by decide
    rw [hs, hs, hdst, hdst]
    refine ⟨?_, ?_, ?_, ?_⟩ <;> apply List.take_of_length_le <;>
      simp only [List.length_append, List.length_cons, List.length_nil, hr, hc, hm, MAX_PATH] <;>
      omega

theorem sync_invocations_witness :
    ((temp_dir envOk).length ≤ 234 ∧ pathMAA.length ≤ 250) ∧
    (update envOk (World.mk pathMAA none [])).2.trace =
      [Event.mkdir (temp_dir envOk),
       Event.URLDownloadToFile DOWNLOAD_URL (zip_path envOk) true,
       Event.zip_open (zip_path envOk) true,
       Event.zip_extract (temp_dir envOk) true,
       Event.zip_close,
       Event.system (copy_folder_cmd
         (temp_dir envOk ++ "MaaResource-main".toList ++ [BACKSLASH] ++ "resource".toList)
         (pathMAA ++ [BACKSLASH] ++ "resource".toList)) 0,
       Event.system (copy_folder_cmd
         (temp_dir envOk ++ "MaaResource-main".toList ++ [BACKSLASH] ++ "cache".toList)
         (pathMAA ++ [BACKSLASH] ++ "cache".toList)) 0] ∧
    (src_path envOk "resource".toList =
        temp_dir envOk ++ "MaaResource-main".toList ++ [BACKSLASH] ++ "resource".toList ∧
      dst_path (World.mk pathMAA none []) "resource".toList =
        pathMAA ++ [BACKSLASH] ++ "resource".toList ∧
      src_path envOk "cache".toList =
        temp_dir envOk ++ "MaaResource-main".toList ++ [BACKSLASH] ++ "cache".toList ∧
      dst_path (World.mk pathMAA none []) "cache".toList =
        pathMAA ++ [BACKSLASH] ++ "cache".toList) :=
  ⟨by decide,
   (sync_invocations envOk (World.mk pathMAA none []) rfl rfl).2.2.1,
   (sync_invocations envOk (World.mk pathMAA none []) rfl rfl).2.2.2.2 (by decide) (by decide)⟩

/-- C8 fails as stated: with an installation path of 251 characters the
destination passed for `resource` is the path followed by a separator and
`resourc`, not the path followed by a separator and `resource`; and with a
staging directory of 242 characters, which fits its buffer, the source passed
for `resource` is cut after `MaaResource-main`, not the staging directory
followed by `MaaResource-main`, a separator and `resource`. -/
theorem sync_destination_cut :
    (dst_path (World.mk pathLong none []) "resource".toList =
        pathLong ++ [BACKSLASH] ++ "resourc".toList ∧
      dst_path (World.mk pathLong none []) "resource".toList ≠
        pathLong ++ [BACKSLASH] ++ "resource".toList ∧
      (update envOk (World.mk pathLong none [])).2.trace.filter Event.isCopy =
        [Event.system (copy_folder_cmd
           (temp_dir envOk ++ "MaaResource-main".toList ++ [BACKSLASH] ++ "resource".toList)
           (pathLong ++ [BACKSLASH] ++ "resourc".toList)) 0,
         Event.system (copy_folder_cmd
           (temp_dir envOk ++ "MaaResource-main".toList ++ [BACKSLASH] ++ "cache".toList)
           (pathLong ++ [BACKSLASH] ++ "cache".toList)) 0] ∧
      Event.system (copy_folder_cmd
         (temp_dir envOk ++ "MaaResource-main".toList ++ [BACKSLASH] ++ "resource".toList)
         (pathLong ++ [BACKSLASH] ++ "resource".toList)) 0
        ∉ (update envOk (World.mk pathLong none [])).2.trace) ∧
    ((temp_dir envLongTemp).length = 242 ∧ (zip_path envLongTemp).length < MAX_PATH ∧
      src_path envLongTemp "resource".toList =
        temp_dir envLongTemp ++ "MaaResource-main".toList ++ [BACKSLASH] ∧
      src_path envLongTemp "resource".toList ≠
        temp_dir envLongTemp ++ "MaaResource-main".toList ++ [BACKSLASH] ++ "resource".toList ∧
      Event.system (copy_folder_cmd
         (temp_dir envLongTemp ++ "MaaResource-main".toList ++ [BACKSLASH] ++ "resource".toList)
         (pathMAA ++ [BACKSLASH] ++ "resource".toList)) 0
        ∉ (update envLongTemp (World.mk pathMAA none [])).2.trace) := by
  decide

/-- C9 (as the code has it). Persist before fetch: in a run in which the
loaded configuration is empty and the folder dialog returns `P`, if the
configuration file can be opened for writing the program writes exactly `P` to
it (no newline added) after the welcome notice and the dialog, and only then
calls the Archive Fetcher; the file holds `P` at the end of the run and the
update runs with `maa_directory = P`. If the file cannot be opened for writing
it is left as it was, nothing is written, and the update runs with
`maa_directory = P` all the same. -/
theorem persist_before_fetch (env : Env) (cfg : Option (List Char)) (P : List Char)
    (hempty : (load_config (init cfg)).maa_directory = []) (hpick : env.picker = some P) :
    (env.config_writable = true →
      (∃ rest, (main env (init cfg)).2.trace =
        [MSG_WELCOME, Event.SHBrowseForFolder "选择MAA安装路径", Event.fprintf CONFIG_FILE P,
         Event.mkdir (temp_dir env),
         Event.URLDownloadToFile DOWNLOAD_URL (zip_path env) env.download_ok] ++ rest) ∧
      (main env (init cfg)).2.config_file = some P ∧
      main env (init cfg) = main_update env
        { maa_directory := P, config_file := some P,
          trace := [MSG_WELCOME, Event.SHBrowseForFolder "选择MAA安装路径",
            Event.fprintf CONFIG_FILE P] }) ∧
    (env.config_writable = false →
      (∃ rest, (main env (init cfg)).2.trace =
        [MSG_WELCOME, Event.SHBrowseForFolder "选择MAA安装路径",
         Event.mkdir (temp_dir env),
         Event.URLDownloadToFile DOWNLOAD_URL (zip_path env) env.download_ok] ++ rest) ∧
      (main env (init cfg)).2.config_file = cfg ∧
      main env (init cfg) = main_update env
        { maa_directory := P, config_file := cfg,
          trace := [MSG_WELCOME, Event.SHBrowseForFolder "选择MAA安装路径"] }) := by
  have hmain := main_first_run env cfg P hempty hpick
  constructor
  · intro hwr
    have hsave : save_config env
        { maa_directory := P, config_file := cfg,
          trace := [MSG_WELCOME, Event.SHBrowseForFolder "选择MAA安装路径"] } =
        { maa_directory := P, config_file := some P,
          trace := [MSG_WELCOME, Event.SHBrowseForFolder "选择MAA安装路径",
            Event.fprintf CONFIG_FILE P] } := by
      simp [save_config, hwr, emit]
    rw [hsave] at hmain
    refine ⟨?_, ?_, hmain⟩
    · rw [hmain]
      obtain ⟨rest, hrest⟩ := main_update_trace_start env
        { maa_directory := P, config_file := some P,
          trace := [MSG_WELCOME, Event.SHBrowseForFolder "选择MAA安装路径",
            Event.fprintf CONFIG_FILE P] }
      exact ⟨rest, by rw [hrest]; rfl⟩
    · rw [hmain, main_update_config_file]
  · intro hwr
    have hsave : save_config env
        { maa_directory := P, config_file := cfg,
          trace := [MSG_WELCOME, Event.SHBrowseForFolder "选择MAA安装路径"] } =
        { maa_directory := P, config_file := cfg,
          trace := [MSG_WELCOME, Event.SHBrowseForFolder "选择MAA安装路径"] } := by
      simp [save_config, hwr]
    rw [hsave] at hmain
    refine ⟨?_, ?_, hmain⟩
    · rw [hmain]
      obtain ⟨rest, hrest⟩ := main_update_trace_start env
        { maa_directory := P, config_file := cfg,
          trace := [MSG_WELCOME, Event.SHBrowseForFolder "选择MAA安装路径"] }
      exact ⟨rest, by rw [hrest]; rfl⟩
    · rw [hmain, main_update_config_file]

theorem persist_before_fetch_witness :
    (∃ rest, (main envOk (init none)).2.trace =
      [MSG_WELCOME, Event.SHBrowseForFolder "选择MAA安装路径", Event.fprintf CONFIG_FILE pathMAA,
       Event.mkdir (temp_dir envOk),
       Event.URLDownloadToFile DOWNLOAD_URL (zip_path envOk) envOk.download_ok] ++ rest) ∧
    (main envOk (init none)).2.config_file = some pathMAA ∧
    main envOk (init none) = main_update envOk
      { maa_directory := pathMAA, config_file := some pathMAA,
        trace := [MSG_WELCOME, Event.SHBrowseForFolder "选择MAA安装路径",
          Event.fprintf CONFIG_FILE pathMAA] } :=
  (persist_before_fetch envOk none pathMAA rfl rfl).1 rfl

/-- C9 fails as stated: in a first run where the configuration file cannot be
opened for writing and the user picks `pathMAA`, the Archive Fetcher is invoked
although the configuration file was never written. -/
theorem fetch_without_persist :
    (load_config (init none)).maa_directory = [] ∧
    envNotWritable.picker = some pathMAA ∧
    (main envNotWritable (init none)).2.config_file = none ∧
    (main envNotWritable (init none)).2.trace.filter Event.isConfigWrite = [] ∧
    Event.URLDownloadToFile DOWNLOAD_URL (zip_path envNotWritable) true
      ∈ (main envNotWritable (init none)).2.trace := by
  decide

/-! ## Directory synchronizer: the command line -/

/-- C10. Copy command construction: for paths without a double quote whose
lengths add up to at most 499, the command passed to the shell is exactly
`xcopy /E /I /Y ` followed by `src` in quotes, a space and `dst` in quotes,
with four quote characters in all; for longer pairs the command has `2 * MAX_PATH - 1` characters and is an initial segment
of the text up to the end of `dst`, so the destination argument is cut or at
least its closing quote is lost. -/
theorem copy_folder_cmd_spec (src dst : List Char) (hs : QUOTE ∉ src) (hd : QUOTE ∉ dst) :
    (src.length + dst.length ≤ 499 →
      copy_folder_cmd src dst =
        "xcopy /E /I /Y ".toList ++ [QUOTE] ++ src ++ [QUOTE] ++ [Char.ofNat 32] ++ [QUOTE]
          ++ dst ++ [QUOTE] ∧
      (copy_folder_cmd src dst).count QUOTE = 4) ∧
    (499 < src.length + dst.length →
      (copy_folder_cmd src dst).length = MAX_PATH * 2 - 1 ∧
      copy_folder_cmd src dst <+:
        "xcopy /E /I /Y ".toList ++ [QUOTE] ++ src ++ [QUOTE] ++ [Char.ofNat 32] ++ [QUOTE] ++ dst) := by
  have hlen := copy_folder_format_length src dst
  constructor
  · intro h
    have hcmd : copy_folder_cmd src dst = copy_folder_format src dst := by
      unfold copy_folder_cmd snprintf
      apply List.take_of_length_le
      unfold MAX_PATH
      omega
    rw [hcmd, copy_folder_format_eq]
    refine ⟨rfl, ?_⟩
    have hx : List.count QUOTE "xcopy /E /I /Y ".toList = 0 := by decide
    have h1 : List.count QUOTE [QUOTE] = 1 := by decide
    have h2 : List.count QUOTE [Char.ofNat 32] = 0 := by decide
    simp only [List.count_append, hx, h1, h2, List.count_eq_zero_of_not_mem hs,
      List.count_eq_zero_of_not_mem hd]
  · intro h
    unfold copy_folder_cmd snprintf
    constructor
    · rw [List.length_take, hlen]
      unfold MAX_PATH
      omega
    · rw [copy_folder_format_eq, List.take_append_of_le_length]
      · exact List.take_prefix _ _
      · have hx : "xcopy /E /I /Y ".toList.length = 15 := by decide
        simp only [List.length_append, List.length_cons, List.length_nil, hx, MAX_PATH]
        omega

theorem copy_folder_cmd_spec_witness :
    (copy_folder_cmd (tempPath ++ "resource".toList) (pathMAA ++ [BACKSLASH] ++ "resource".toList)
        = "xcopy /E /I /Y ".toList ++ [QUOTE] ++ (tempPath ++ "resource".toList) ++ [QUOTE]
          ++ [Char.ofNat 32] ++ [QUOTE] ++ (pathMAA ++ [BACKSLASH] ++ "resource".toList) ++ [QUOTE] ∧
      (copy_folder_cmd (tempPath ++ "resource".toList)
        (pathMAA ++ [BACKSLASH] ++ "resource".toList)).count QUOTE = 4) ∧
    (copy_folder_cmd (List.replicate 250 (Char.ofNat 97)) (List.replicate 250 (Char.ofNat 98))).length
      = MAX_PATH * 2 - 1 :=
  ⟨(copy_folder_cmd_spec (tempPath ++ "resource".toList)
      (pathMAA ++ [BACKSLASH] ++ "resource".toList) (by decide) (by decide)).1 (by decide),
   ((copy_folder_cmd_spec (List.replicate 250 (Char.ofNat 97)) (List.replicate 250 (Char.ofNat 98))
      (by decide) (by decide)).2 (by decide)).1⟩

end MAAUpdater
